import Mathlib

/-!
Verification of the request-handling core of `serve_and_track.go`, a small
tracking web server.  The Go handlers are embedded as pure Lean functions:
the Prometheus metrics registry becomes an explicit record of natural-number
counters threaded through each handler call, the outcome of the body write
and of the filesystem stat become explicit inputs, and the signal-driven
shutdown of `main` becomes a small transition system on lifecycle phases.
-/

namespace ServeAndTrack

/-- The fixed transparent GIF payload served as the tracking image
(`var GIF` in the source). -/
def GIF : List Nat :=
  [71, 73, 70, 56, 57, 97, 1, 0, 1, 0, 128, 0, 0, 0, 0, 0,
   255, 255, 255, 33, 249, 4, 1, 0, 0, 0, 0, 44, 0, 0, 0, 0,
   1, 0, 1, 0, 0, 2, 1, 68, 0, 59]

/-- Byte sequence of an ASCII string, as written by `w.Write([]byte(...))`. -/
def strBytes (s : String) : List Nat := s.data.map Char.toNat

/-- State of the Prometheus metrics registry: the observation count of the
`tracking_request_duration` summary, the two `tracking_requests_count_total`
counters partitioned by the `status` label, and the
`tracking_requests_size_total` counter.  All increments in the source are by
1 or by `len(GIF)`, so naturals model the counter values exactly. -/
structure Metrics where
  durationCount : Nat
  successCount : Nat
  failureCount : Nat
  sizeTotal : Nat
deriving DecidableEq, Repr

/-- Freshly registered metrics: every counter and the summary start at zero. -/
def metrics0 : Metrics := ⟨0, 0, 0, 0⟩

/-- Effect of `trackServeImageDuration` on the registry: one observation is
added to the duration summary (`serveImageRequestDuration.Observe`). -/
def trackServeImageDuration (m : Metrics) : Metrics :=
  { m with durationCount := m.durationCount + 1 }

/-- An HTTP response as assembled by the handlers: status code, the
`Cache-Control` header when set, the `Content-Type` header when set, and the
body bytes the handler writes. -/
structure Response where
  status : Nat
  cacheControl : Option String
  contentType : Option String
  body : List Nat
deriving DecidableEq, Repr

/-- The caching-disabling header value both handlers set. -/
def cacheControlValue : String := "no-cache, no-store, must-revalidate"

/-- Response produced by `http.NotFound`: status 404, a plain-text body, and
no `Cache-Control` header (the handlers return before setting it). -/
def notFoundResponse : Response :=
  { status := 404
    cacheControl := none
    contentType := some "text/plain; charset=utf-8"
    body := strBytes "404 page not found\n" }

/-- The `serveImage` handler.  `writeOk` tells whether `w.Write(GIF)`
succeeds.  The deferred `trackServeImageDuration` runs on every exit path,
so each branch finishes by adding one duration observation.  On a non-GET
method the handler answers 404 before setting headers; on a successful
write it increments the success counter and adds `len(GIF)` to the size
counter; on a failed write it increments the failure counter only. -/
def serveImage (method : String) (writeOk : Bool) (m : Metrics) :
    Response × Metrics :=
  if method ≠ "GET" then
    (notFoundResponse, trackServeImageDuration m)
  else if writeOk then
    ({ status := 200
       cacheControl := some cacheControlValue
       contentType := some "image/gif"
       body := GIF },
     trackServeImageDuration
       { m with successCount := m.successCount + 1
                sizeTotal := m.sizeTotal + GIF.length })
  else
    ({ status := 200
       cacheControl := some cacheControlValue
       contentType := some "image/gif"
       body := [] },
     trackServeImageDuration { m with failureCount := m.failureCount + 1 })

/-- Possible failures of `os.Stat` on the state file path. -/
inductive StatError
  | notFound
  | permissionDenied
  | otherFailure
deriving DecidableEq, Repr

/-- The `serviceHealthy` check: `_, err := os.Stat(*stateFilePath);
return err == nil`.  The stat result is the environment input. -/
def serviceHealthy (statResult : Except StatError Unit) : Bool :=
  match statResult with
  | .ok _ => true
  | .error _ => false

/-- The `serveState` handler.  `statResult` is what `os.Stat` would return
at the moment of the request.  The second component counts how many stat
calls the handler performs: `serviceHealthy` is consulted exactly once on
the GET path and never on the non-GET path.  The handler never touches the
tracking metrics registry. -/
def serveState (method : String) (statResult : Except StatError Unit) :
    Response × Nat :=
  if method ≠ "GET" then
    (notFoundResponse, 0)
  else if ¬ serviceHealthy statResult then
    ({ status := 503
       cacheControl := some cacheControlValue
       contentType := some "text/html"
       body := strBytes "Error 503 (Service not available)" }, 1)
  else
    ({ status := 200
       cacheControl := some cacheControlValue
       contentType := some "text/html"
       body := strBytes "OK" }, 1)

/-- Sequential execution of tracking-path requests, threading the metrics
registry: each request is a method together with the outcome of its body
write. -/
def runImageRequests : List (String × Bool) → Metrics → List Response × Metrics
  | [], m => ([], m)
  | (method, writeOk) :: rest, m =>
      let step := serveImage method writeOk m
      let restRun := runImageRequests rest step.2
      (step.1 :: restRun.1, restRun.2)

/-- Sequential execution of GET requests on the state path, one stat result
per request (the handler re-queries the filesystem every time and holds no
state of its own). -/
def runStateRequests (stats : List (Except StatError Unit)) : List Response :=
  stats.map (fun e => (serveState "GET" e).1)

/-- Lifecycle phases of the server in `main`: serving, draining after the
termination signal, and stopped. -/
inductive Phase
  | serving
  | shuttingDown
  | stopped
deriving DecidableEq, Repr

/-- Events driving the lifecycle: the termination signal received on the
`terminateServer` channel, completion of all in-flight requests, and expiry
of the shutdown deadline. -/
inductive LifecycleEvent
  | termSignal
  | drainDone
  | timeoutFired
deriving DecidableEq, Repr

/-- The shutdown bound passed to `context.WithTimeout` in `stopServer`,
in seconds (`8*time.Second`). -/
def shutdownTimeoutSeconds : Nat := 8

/-- Log line emitted by `stopServer` after `srv.Shutdown` returns:
`withinBound` tells whether every in-flight request completed before the
deadline (`err == nil`). -/
def stopLog (withinBound : Bool) : String :=
  if withinBound then "INFO http: Server stopped gracefully"
  else "INFO http: Server stopped forcefully"

/-- Lifecycle transitions of `main`: only the termination signal leaves the
serving phase, `srv.Shutdown` returning (by drain or by deadline) stops the
server, and the stopped phase is terminal (the process exits). -/
def lifecycleStep : Phase → LifecycleEvent → Phase
  | .serving, .termSignal => .shuttingDown
  | .serving, _ => .serving
  | .shuttingDown, .drainDone => .stopped
  | .shuttingDown, .timeoutFired => .stopped
  | .shuttingDown, .termSignal => .shuttingDown
  | .stopped, _ => .stopped

/-- Folding a sequence of lifecycle events from a starting phase. -/
def runLifecycle (p : Phase) (events : List LifecycleEvent) : Phase :=
  events.foldl lifecycleStep p

/-- Number of serving-to-shutting-down transitions along an event trace. -/
def countShutdownStarts : Phase → List LifecycleEvent → Nat
  | _, [] => 0
  | p, e :: rest =>
      (if p = .serving ∧ lifecycleStep p e ≠ .serving then 1 else 0)
      + countShutdownStarts (lifecycleStep p e) rest

lemma serveImage_durationCount (method : String) (writeOk : Bool) (m : Metrics) :
    (serveImage method writeOk m).2.durationCount = m.durationCount + 1 := by
  unfold serveImage
  split_ifs <;> simp [trackServeImageDuration]

lemma serveImage_get_true (m : Metrics) :
    serveImage "GET" true m =
      ({ status := 200
         cacheControl := some cacheControlValue
         contentType := some "image/gif"
         body := GIF },
       { m with durationCount := m.durationCount + 1
                successCount := m.successCount + 1
                sizeTotal := m.sizeTotal + GIF.length }) := by
  simp [serveImage, trackServeImageDuration]

lemma runImage_replicate_true (n : Nat) (m : Metrics) :
    (runImageRequests (List.replicate n ("GET", true)) m).2 =
      { durationCount := m.durationCount + n
        successCount := m.successCount + n
        failureCount := m.failureCount
        sizeTotal := m.sizeTotal + n * GIF.length } := by
  induction n generalizing m with
  | zero => simp [runImageRequests]
  | succ k ih =>
      rw [List.replicate_succ]
      simp only [runImageRequests, serveImage_get_true]
      rw [ih]
      simp [Metrics.mk.injEq, Nat.succ_mul]
      omega

lemma runImage_replicate_true_responses (n : Nat) (m : Metrics) :
    (runImageRequests (List.replicate n ("GET", true)) m).1 =
      List.replicate n
        { status := 200
          cacheControl := some cacheControlValue
          contentType := some "image/gif"
          body := GIF } := by
  induction n generalizing m with
  | zero => simp [runImageRequests]
  | succ k ih =>
      rw [List.replicate_succ, List.replicate_succ]
      simp only [runImageRequests, serveImage_get_true]
      rw [ih]

lemma lifecycleStep_not_serving (p : Phase) (e : LifecycleEvent)
    (h : p ≠ .serving) : lifecycleStep p e ≠ .serving := by
  cases p <;> cases e <;> simp_all [lifecycleStep]

lemma runLifecycle_not_serving (events : List LifecycleEvent) (p : Phase)
    (h : p ≠ .serving) : runLifecycle p events ≠ .serving := by
  induction events generalizing p with
  | nil => exact h
  | cons e rest ih => exact ih _ (lifecycleStep_not_serving p e h)

lemma countShutdownStarts_of_not_serving (events : List LifecycleEvent)
    (p : Phase) (h : p ≠ .serving) : countShutdownStarts p events = 0 := by
  induction events generalizing p with
  | nil => rfl
  | cons e rest ih =>
      have hcond : ¬ (p = Phase.serving ∧ lifecycleStep p e ≠ Phase.serving) :=
        fun hc => h hc.1
      simp only [countShutdownStarts, if_neg hcond, Nat.zero_add]
      exact ih _ (lifecycleStep_not_serving p e h)

lemma countShutdownStarts_le_one (events : List LifecycleEvent) :
    countShutdownStarts .serving events ≤ 1 := by
  induction events with
  | nil => simp [countShutdownStarts]
  | cons e rest ih =>
      cases e with
      | termSignal =>
          simp only [countShutdownStarts, lifecycleStep]
          rw [countShutdownStarts_of_not_serving rest .shuttingDown (by simp)]
          simp
      | drainDone =>
          simpa [countShutdownStarts, lifecycleStep] using ih
      | timeoutFired =>
          simpa [countShutdownStarts, lifecycleStep] using ih

/-- C1: starting from fresh metrics, after exactly `n` GET requests to the
tracking path whose body writes all succeed, the duration summary has
observed `n` times, the success counter is `n`, the failure counter is `0`,
and the size counter is `n` times the payload length; every one of those
requests is answered 200 with content type `image/gif` and the full GIF
payload as body. -/
theorem tracking_success_metrics_C1 (n : Nat) :
    (runImageRequests (List.replicate n ("GET", true)) metrics0).2.durationCount = n
    ∧ (runImageRequests (List.replicate n ("GET", true)) metrics0).2.successCount = n
    ∧ (runImageRequests (List.replicate n ("GET", true)) metrics0).2.failureCount = 0
    ∧ (runImageRequests (List.replicate n ("GET", true)) metrics0).2.sizeTotal
        = n * GIF.length
    ∧ ∀ resp ∈ (runImageRequests (List.replicate n ("GET", true)) metrics0).1,
        resp.status = 200 ∧ resp.contentType = some "image/gif" ∧ resp.body = GIF := by
  refine ⟨?_, ?_, ?_, ?_, ?_⟩
  · rw [runImage_replicate_true]; simp [metrics0]
  · rw [runImage_replicate_true]; simp [metrics0]
  · rw [runImage_replicate_true]; simp [metrics0]
  · rw [runImage_replicate_true]; simp [metrics0]
  · rw [runImage_replicate_true_responses]
    intro resp hresp
    rw [List.eq_of_mem_replicate hresp]
    exact ⟨rfl, rfl, rfl⟩

/-- C2: a GET on the state path is answered 200 with exact body "OK"
(2 bytes) when the stat of the marker path succeeds at that moment, and 503
with the exact 33-byte error body otherwise; and the response to a request
is a function of that request's own stat result only — appending a request
to any history appends exactly its own response, so nothing from a prior
request is cached. -/
theorem state_get_responses_C2 (e : Except StatError Unit)
    (prev : List (Except StatError Unit)) :
    ((serveState "GET" e).1 =
      if serviceHealthy e then
        { status := 200
          cacheControl := some cacheControlValue
          contentType := some "text/html"
          body := strBytes "OK" }
      else
        { status := 503
          cacheControl := some cacheControlValue
          contentType := some "text/html"
          body := strBytes "Error 503 (Service not available)" })
    ∧ (strBytes "OK").length = 2
    ∧ (strBytes "Error 503 (Service not available)").length = 33
    ∧ runStateRequests (prev ++ [e]) = runStateRequests prev ++ [(serveState "GET" e).1] := by
  refine ⟨?_, by decide, by decide, by simp [runStateRequests]⟩
  cases e with
  | ok u => simp [serveState, serviceHealthy]
  | error err => simp [serveState, serviceHealthy]

/-- C4: every completed invocation of the image handler adds exactly one
observation to the duration summary, whatever the method, the write outcome
and the exit path, so after any sequence of completed invocations the
observation count has grown by the number of invocations. -/
theorem duration_observed_each_invocation_C4 (reqs : List (String × Bool))
    (m : Metrics) :
    (runImageRequests reqs m).2.durationCount = m.durationCount + reqs.length := by
  induction reqs generalizing m with
  | nil => simp [runImageRequests]
  | cons r rest ih =>
      simp only [runImageRequests, List.length_cons, ih, serveImage_durationCount]
      omega

/-- C5: on a GET tracking request whose body write fails, the handler
increments the failure counter by exactly one and leaves the size and
success counters unchanged; the handler returns a response normally (the
embedding is a total function into `Response`, so no error escapes). -/
theorem write_failure_metrics_C5 (m : Metrics) :
    (serveImage "GET" false m).2.failureCount = m.failureCount + 1
    ∧ (serveImage "GET" false m).2.sizeTotal = m.sizeTotal
    ∧ (serveImage "GET" false m).2.successCount = m.successCount := by
  simp [serveImage, trackServeImageDuration]

/-- C6: the health evaluator returns true exactly when the stat succeeds,
and every stat error — file absent, permission denied or any other failure —
yields false; it is a pure total function, so no error reaches the caller
and there is no side effect. -/
theorem service_healthy_iff_stat_ok_C6 (e : Except StatError Unit) :
    (serviceHealthy e = true ↔ e = .ok ())
    ∧ ∀ err : StatError, serviceHealthy (.error err) = false := by
  refine ⟨?_, fun err => rfl⟩
  cases e with
  | ok u => simp [serviceHealthy]
  | error err => simp [serviceHealthy]

/-- C3 counterexample: a POST to the tracking path is answered 404, as the
claim says, but the deferred duration tracking still fires — the duration
summary gains one observation, so the metrics are not all left unchanged. -/
theorem non_get_duration_counterexample_C3 :
    (serveImage "POST" true metrics0).1.status = 404
    ∧ (serveImage "POST" true metrics0).2.durationCount ≠ metrics0.durationCount := by
  decide

/-- C3 amended: a non-GET request to the tracking or state path is answered
404 and leaves the success counter, the failure counter and the size counter
unchanged, but on the tracking path the deferred duration tracking wraps the
whole handler, so the duration summary still gains exactly one observation;
the state handler touches no metric and performs no stat. -/
theorem non_get_frame_C3_amended (method : String) (h : method ≠ "GET")
    (writeOk : Bool) (m : Metrics) (e : Except StatError Unit) :
    (serveImage method writeOk m).1.status = 404
    ∧ (serveImage method writeOk m).2.successCount = m.successCount
    ∧ (serveImage method writeOk m).2.failureCount = m.failureCount
    ∧ (serveImage method writeOk m).2.sizeTotal = m.sizeTotal
    ∧ (serveImage method writeOk m).2.durationCount = m.durationCount + 1
    ∧ (serveState method e).1.status = 404
    ∧ (serveState method e).2 = 0 := by
  simp [serveImage, serveState, trackServeImageDuration, notFoundResponse, h]

theorem non_get_frame_C3_amended_witness :
    (serveImage "POST" true metrics0).1.status = 404
    ∧ (serveImage "POST" true metrics0).2.successCount = metrics0.successCount
    ∧ (serveImage "POST" true metrics0).2.failureCount = metrics0.failureCount
    ∧ (serveImage "POST" true metrics0).2.sizeTotal = metrics0.sizeTotal
    ∧ (serveImage "POST" true metrics0).2.durationCount = metrics0.durationCount + 1
    ∧ (serveState "POST" (.ok ())).1.status = 404
    ∧ (serveState "POST" (.ok ())).2 = 0 :=
  non_get_frame_C3_amended "POST" (by decide) true metrics0 (.ok ())

/-- C7: the shutdown bound handed to the shutdown context is exactly 8
seconds; the graceful and the forceful outcome are logged with distinct
messages; along any event trace starting in the serving phase the
serving-to-shutting-down transition happens at most once, and once the
server has left the serving phase no event ever brings it back. -/
theorem shutdown_lifecycle_C7 :
    shutdownTimeoutSeconds = 8
    ∧ stopLog true = "INFO http: Server stopped gracefully"
    ∧ stopLog false = "INFO http: Server stopped forcefully"
    ∧ stopLog true ≠ stopLog false
    ∧ (∀ events : List LifecycleEvent, countShutdownStarts .serving events ≤ 1)
    ∧ (∀ (p : Phase) (events : List LifecycleEvent),
        p ≠ .serving → runLifecycle p events ≠ .serving) := by
  refine ⟨rfl, rfl, rfl, by decide, countShutdownStarts_le_one, ?_⟩
  exact fun p events h => runLifecycle_not_serving events p h

/-- C8 counterexample: the response to a PUT request on the tracking path
carries no Cache-Control header at all — `http.NotFound` answers before the
handler sets any header — so not every response on these paths carries it. -/
theorem cache_control_counterexample_C8 :
    (serveImage "PUT" true metrics0).1.cacheControl = none
    ∧ (serveImage "PUT" true metrics0).1.cacheControl ≠ some cacheControlValue := by
  decide

/-- C8 amended: every response to a GET request on the tracking path and on
the state path carries the header
`Cache-Control: no-cache, no-store, must-revalidate`; non-GET 404 responses
carry no such header. -/
theorem cache_control_get_C8_amended (writeOk : Bool) (m : Metrics)
    (e : Except StatError Unit) :
    (serveImage "GET" writeOk m).1.cacheControl = some cacheControlValue
    ∧ (serveState "GET" e).1.cacheControl = some cacheControlValue
    ∧ cacheControlValue = "no-cache, no-store, must-revalidate" := by
  refine ⟨?_, ?_, rfl⟩
  · cases writeOk <;> simp [serveImage]
  · cases e with
    | ok u => simp [serveState, serviceHealthy]
    | error err => simp [serveState, serviceHealthy]

/-- C9: the fixed payload is exactly 42 bytes, its first six bytes are the
ASCII signature "GIF89a", and — `GIF` being a constant never reassigned —
every successful tracking response carries exactly these 42 bytes as body
and adds exactly 42 to the size counter. -/
theorem gif_payload_C9 (m : Metrics) :
    GIF.length = 42
    ∧ GIF.take 6 = strBytes "GIF89a"
    ∧ (serveImage "GET" true m).1.body = GIF
    ∧ (serveImage "GET" true m).2.sizeTotal = m.sizeTotal + 42 := by
  refine ⟨by decide, by decide, ?_, ?_⟩
  · simp [serveImage_get_true]
  · simp [serveImage_get_true]; decide

/-- C10: a non-GET request on the state path is answered 404 with zero stat
calls — the health evaluator is never consulted — and the whole result is
identical whatever the stat of the marker path would have returned. -/
theorem state_non_get_no_stat_C10 (method : String) (h : method ≠ "GET")
    (e e2 : Except StatError Unit) :
    (serveState method e).2 = 0
    ∧ serveState method e = serveState method e2
    ∧ (serveState method e).1.status = 404 := by
  simp [serveState, notFoundResponse, h]

theorem state_non_get_no_stat_C10_witness :
    (serveState "DELETE" (.ok ())).2 = 0
    ∧ serveState "DELETE" (.ok ()) = serveState "DELETE" (.error .notFound)
    ∧ (serveState "DELETE" (.ok ())).1.status = 404 :=
  state_non_get_no_stat_C10 "DELETE" (by decide) (.ok ()) (.error .notFound)

end ServeAndTrack
